import Mathlib

/-!
Verification of the NyayaSahay RAG chatbot specification against the
repository sources.  The frontend behaviour (ChatBubble confidence
indicator, chat API service module, error handling in the chat page) is
embedded from the JavaScript sources.  The backend RAG pipeline
(embedding, retrieval, context assembly, grounded generation and the
grounding guard) ships only as documentation in this repository, so those
operations are modelled from the specification text, as marked on each
definition.
-/

/-! ## Data model (spec section 3) -/

/-- A bounded span of source legal text with citation metadata. -/
structure Chunk where
  id : Nat
  text : String
  act_name : String
  section_label : String
  title : String
  source_offset : Nat
deriving DecidableEq, Repr

/-- Citation metadata derived 1:1 from a Chunk used in the final context. -/
structure Citation where
  act_name : String
  section_label : String
  title : String
deriving DecidableEq, Repr

/-- A retrieved chunk together with its score (squared L2 distance to the
query embedding; smaller is more relevant).  The reference implementation
scores with floating-point distances; the model uses integer-vector
embeddings so that scores are integers. -/
structure RetrievalResult where
  chunk : Chunk
  score : Int
deriving DecidableEq, Repr

/-- Role of a conversation turn. -/
inductive Role where
  | user : Role
  | assistant : Role
deriving DecidableEq, Repr

/-- One prior turn of a session. -/
structure ConversationTurn where
  role : Role
  text : String
  citations : List Citation
  created_at : Nat
deriving DecidableEq, Repr

/-- The structured response of the pipeline for one query. -/
structure GeneratedAnswer where
  text : String
  citations : List Citation
  is_fallback : Bool
deriving DecidableEq, Repr

/-- Error taxonomy of spec section 7: client errors, provider failures and
generation failures are distinct constructors, all distinct from any
successful (fallback or grounded) answer. -/
inductive QueryError where
  | invalidArgument : String → QueryError
  | providerError : String → QueryError
  | generationError : String → QueryError
deriving DecidableEq, Repr

/-! ## Frontend embeddings (from src) -/

/-- Confidence indicator record of the ChatBubble component. -/
structure Confidence where
  level : String
  value : Nat
  text : String
deriving DecidableEq, Repr

/-- From src/unnamed/part_004 lines 18-23 (getConfidence inside ChatBubble):
fallback gives low/0, three or more sources give high/85, at least one
source gives medium/60, otherwise low/30. -/
def getConfidence (isFallback : Bool) (numSources : Nat) : Confidence :=
  if isFallback then { level := "low", value := 0, text := "No match found" }
  else if 3 ≤ numSources then { level := "high", value := 85, text := "High confidence" }
  else if 1 ≤ numSources then { level := "medium", value := 60, text := "Medium confidence" }
  else { level := "low", value := 30, text := "Low confidence" }

/-- From src/unnamed/part_004 line 51: the Legal References section is
rendered exactly when the message is a bot message with a nonempty source
list and the fallback flag is off. -/
def showsLegalReferences (role : String) (sources : List Citation) (isFallback : Bool) : Bool :=
  role == "bot" && !sources.isEmpty && !isFallback

/-- Shape of a parsed response of the /api/v1/chat endpoint as consumed by
the chat page (src/frontend/src/pages/Chat.jsx lines 256-265). -/
structure ChatApiResponse where
  answer : String
  sources : List Citation
  is_fallback : Bool
  session_id : Option String
deriving DecidableEq, Repr

/-- A bot message as appended to the message list by handleSend. -/
structure BotMessage where
  content : String
  sources : List Citation
  isFallback : Bool
deriving DecidableEq, Repr

/-- The apology text built in the catch branch of handleSend
(src/frontend/src/pages/Chat.jsx line 277). -/
def errorApology (msg : String) : String :=
  "I apologize, but I encountered an error: " ++ msg ++ ". Please try again."

/-- From src/frontend/src/pages/Chat.jsx lines 256-281: on a successful
API response handleSend appends a bot message carrying the answer, sources
and fallback flag of the response; on a caught error it appends a bot
message holding the apology text, no sources, and isFallback set to true. -/
def handleSendBotMessage (result : Except String ChatApiResponse) : BotMessage :=
  match result with
  | .ok r => { content := r.answer, sources := r.sources, isFallback := r.is_fallback }
  | .error e => { content := errorApology e, sources := [], isFallback := true }

/-- Request body of POST /api/v1/chat as built by the API service module. -/
structure ChatRequestBody where
  query : String
  session_id : Option String
deriving DecidableEq, Repr

/-- Models the JavaScript call fileContext.substring(0, 8000) of
src/frontend/src/pages/Chat.jsx line 1007: the first 8000 characters. -/
def truncatedFileContent (s : String) : String := String.mk (s.data.take 8000)

/-- The text placed in front of the truncated document content by
sendChatWithFile, including the user query. -/
def filePreambleFor (query : String) : String :=
  "Based on the following uploaded document content, please answer this question: "
    ++ query ++ "\n\n--- UPLOADED DOCUMENT ---\n"

/-- The closing delimiter appended after the document content. -/
def fileEpilogue : String := "\n--- END DOCUMENT ---"

/-- From src/frontend/src/pages/Chat.jsx lines 1004-1019: sendChatWithFile
embeds the truncated file content into the query string itself and sends a
body with only the query and session_id fields. -/
def sendChatWithFileBody (query fileContext : String) (sessionId : Option String) : ChatRequestBody :=
  { query := filePreambleFor query ++ truncatedFileContent fileContext ++ fileEpilogue
    session_id := sessionId }

/-- Models the fetch Response.ok flag: status in the range 200..299. -/
def respOk (status : Nat) : Bool := decide (200 ≤ status) && decide (status < 300)

/-- Shape of the HTTP response observed by getChatSessions: status code,
parsed session list (on success) and optional error detail. -/
structure SessionsHttpResponse where
  status : Nat
  body : List String
  detail : Option String
deriving DecidableEq, Repr

/-- From src/frontend/src/pages/Chat.jsx lines 813-838: getChatSessions
returns the parsed body when the response is ok, returns the empty list on
status 401, and throws (here: returns .error) on any other non-ok status,
using the detail field when present. -/
def getChatSessions (r : SessionsHttpResponse) : Except String (List String) :=
  if respOk r.status then .ok r.body
  else if r.status = 401 then .ok []
  else .error (r.detail.getD "Failed to fetch sessions")

/-! ## Backend pipeline, modelled from the spec

The RAG core (app/core of the project layout) is not part of the source
tree of this repository snapshot; every definition below is modelled from
the specification text and the README, as its doc comment records. -/

/-- Modelled from the spec: the exact fallback sentence (spec section 8
Scenario 2 and the README Fallback Response section). -/
def fallbackSentence : String :=
  "The requested information is not available in the provided legal documents."

/-- Modelled from the spec: the fixed string used by the post-generation
check of the Grounding Guard (spec section 4.6), a leading fragment of
the fallback sentence. -/
def fallbackMarker : String := "The requested information is not available"

/-- Boolean string test: p is an initial segment of s. -/
def startsWithStr (s p : String) : Bool := p.data.isPrefixOf s.data

/-- Modelled from the spec (section 4.5): the generation request built for
one query, with deterministic decoding (temperature fixed at the minimum
supported value, 0). -/
structure GenRequest where
  system : String
  context_text : String
  query : String
  history : List ConversationTurn
  temperature : Int
deriving DecidableEq, Repr

/-- Modelled from the spec (section 4.5 and the README prompt excerpt):
the constrained system instruction, ending with the exact fallback
sentence the model must emit verbatim when the context does not answer. -/
def systemInstruction : String :=
  "You are an Indian Law Assistant. Answer questions ONLY using the provided context. "
    ++ "STRICT RULES: 1. Use ONLY the information from the CONTEXT below. "
    ++ "2. NEVER use external knowledge or make assumptions. "
    ++ "3. ALWAYS cite the specific Act name and Section/Article number. "
    ++ "4. If the answer is NOT in the context, respond: " ++ fallbackSentence

/-- Builds the generation request for a query; the temperature is always
the minimum supported value 0 (spec section 4.5). -/
def buildGenRequest (q ctx : String) (hist : List ConversationTurn) : GenRequest :=
  { system := systemInstruction
    context_text := ctx
    query := q
    history := hist
    temperature := 0 }

/-- Modelled from the spec: the environment of the pipeline — pluggable
embedding and generation backends, the read-only index (chunks with their
document embeddings), and the configuration values of spec section 6. -/
structure Env where
  embedProvider : String → Except String (List Int)
  generator : GenRequest → Except String String
  index : List (Chunk × List Int)
  top_k : Nat
  maxDistance : Option Int
  max_chars : Nat
  max_turns : Nat

/-- Squared L2 distance between two embedding vectors. -/
def l2sq (u v : List Int) : Int :=
  ((List.zip u v).map (fun p => (p.1 - p.2) * (p.1 - p.2))).sum

/-- Ordering of retrieval results: ascending distance, with a
deterministic tie-break by chunk id on equal scores (spec section 3). -/
def rrLE (a b : RetrievalResult) : Bool :=
  a.score < b.score || (a.score == b.score && a.chunk.id ≤ b.chunk.id)

/-- Insertion step of the deterministic sort. -/
def insertRR (a : RetrievalResult) : List RetrievalResult → List RetrievalResult
  | [] => [a]
  | b :: bs => if rrLE a b then a :: b :: bs else b :: insertRR a bs

/-- Deterministic insertion sort of retrieval results. -/
def sortRR : List RetrievalResult → List RetrievalResult
  | [] => []
  | a :: as => insertRR a (sortRR as)

/-- Modelled from the spec (section 4.2): nearest-neighbor search — score
every indexed chunk against the query vector, sort by ascending distance
with the id tie-break, and keep the first k results. -/
def search (index : List (Chunk × List Int)) (qv : List Int) (k : Nat) : List RetrievalResult :=
  (sortRR (index.map (fun ci => { chunk := ci.1, score := l2sq ci.2 qv }))).take k

/-- Modelled from the spec (sections 4.3 and 7): retrieve embeds the query
(rejecting an empty query and a non-positive top_k with InvalidArgument,
and surfacing an embedding failure as ProviderError), searches the index,
and optionally drops results beyond the relevance threshold.  An empty
result list is a normal result, not an error. -/
def retrieve (env : Env) (q : String) : Except QueryError (List RetrievalResult) :=
  if q = "" then .error (.invalidArgument "empty query")
  else if env.top_k = 0 then .error (.invalidArgument "top_k must be positive")
  else
    match env.embedProvider q with
    | .error msg => .error (.providerError msg)
    | .ok qv =>
      let hits := search env.index qv env.top_k
      match env.maxDistance with
      | none => .ok hits
      | some t => .ok (hits.filter (fun r => decide (r.score ≤ t)))

/-- The citation of a chunk. -/
def chunkCitation (ch : Chunk) : Citation :=
  { act_name := ch.act_name, section_label := ch.section_label, title := ch.title }

/-- The fixed textual citation label of a citation, as required inline in
answers: act name, comma, section label. -/
def citationKey (c : Citation) : String := c.act_name ++ ", " ++ c.section_label

/-- One context block: the chunk text with its citation label in front
(spec section 4.4). -/
def chunkBlock (r : RetrievalResult) : String :=
  "[" ++ citationKey (chunkCitation r.chunk) ++ "] " ++ r.chunk.text

/-- Concatenation of context blocks in retrieval order, separated by blank
lines. -/
def renderContext : List RetrievalResult → String
  | [] => ""
  | [r] => chunkBlock r
  | r :: s :: rest => chunkBlock r ++ "\n\n" ++ renderContext (s :: rest)

/-- Two citations collide when they agree on act name and section label
(the deduplication key of spec section 3). -/
def sameCitationKey (a b : Citation) : Bool :=
  a.act_name == b.act_name && a.section_label == b.section_label

/-- Deduplication of citations preserving first-seen order. -/
def dedupCitations (cs : List Citation) : List Citation :=
  cs.foldl (fun acc c => if acc.any (sameCitationKey c) then acc else acc ++ [c]) []

/-- The number of leading results kept by the context budget: the largest
count whose rendered context fits in m characters (equivalently, the
count reached by repeatedly dropping the lowest-ranked chunk while the
rendering is too long). -/
def fitCount (m : Nat) (rs : List RetrievalResult) : Nat :=
  (((List.range (rs.length + 1)).reverse).find?
    (fun k => decide ((renderContext (rs.take k)).length ≤ m))).getD 0

/-- Modelled from the spec (section 4.4): assemble concatenates chunk
texts in retrieval order, each prefixed with its citation label, truncates
by dropping whole lowest-ranked chunks to respect max_chars, and returns
the deduplicated citations of the kept chunks. -/
def assemble (results : List RetrievalResult) (max_chars : Nat) : String × List Citation :=
  let kept := results.take (fitCount max_chars results)
  (renderContext kept, dedupCitations (kept.map (fun r => chunkCitation r.chunk)))

/-- Modelled from the spec (section 4.7): the most recent max_turns turns,
oldest dropped first. -/
def build_history_window (turns : List ConversationTurn) (max_turns : Nat) : List ConversationTurn :=
  turns.drop (turns.length - max_turns)

/-- State of the bracket scanner: the characters of the currently open
marker (innermost-first), plus the markers already closed (reversed). -/
def extractStep (st : Option (List Char) × List String) (c : Char) : Option (List Char) × List String :=
  match st with
  | (none, acc) => if c = '[' then (some [], acc) else (none, acc)
  | (some seg, acc) => if c = ']' then (none, String.mk seg.reverse :: acc) else (some (c :: seg), acc)

/-- Modelled from the spec (section 4.5 post-processing): the citation
markers actually present in a completion — the bracketed segments of the
text. -/
def extractMarkerStrings (s : String) : List String :=
  ((s.data.foldl extractStep (none, [])).2).reverse

/-- Modelled from the spec (sections 4.5, 4.6 and 2): the full pipeline
run for one query, returning the structured answer (or error) together
with the number of times the Answer Generator was invoked.  Pre-check: an
empty retrieval short-circuits to the fixed fallback answer with no
generator call.  Post-check: a completion that starts with the designated
fallback fragment makes the guard emit the standard fallback answer with
all citations stripped.  Otherwise the completion is kept and its
citations are the context citations whose labels occur as markers in the
completion (unmatched markers are dropped). -/
def answerQueryWithCount (env : Env) (q : String) (turns : List ConversationTurn) :
    Except QueryError GeneratedAnswer × Nat :=
  match retrieve env q with
  | .error e => (.error e, 0)
  | .ok [] => (.ok { text := fallbackSentence, citations := [], is_fallback := true }, 0)
  | .ok (r :: rs) =>
    match env.generator (buildGenRequest q (assemble (r :: rs) env.max_chars).1
        (build_history_window turns env.max_turns)) with
    | .error msg => (.error (.generationError msg), 1)
    | .ok raw =>
      if startsWithStr raw fallbackMarker then
        (.ok { text := fallbackSentence, citations := [], is_fallback := true }, 1)
      else
        (.ok { text := raw
               citations := (assemble (r :: rs) env.max_chars).2.filter
                 (fun c => decide (citationKey c ∈ extractMarkerStrings raw))
               is_fallback := false }, 1)

/-- The external interface of spec section 6: the structured answer for
one query. -/
def answer_query (env : Env) (q : String) (turns : List ConversationTurn) :
    Except QueryError GeneratedAnswer :=
  (answerQueryWithCount env q turns).1

/-- The citation set of the context actually assembled for a query: the
citations returned by assemble on the retrieval results (empty when
retrieval fails). -/
def contextCitations (env : Env) (q : String) : List Citation :=
  match retrieve env q with
  | .error _ => []
  | .ok results => (assemble results env.max_chars).2

/-! ## Demonstration fixtures -/

/-- A concrete chunk used by the evaluation witnesses. -/
def demoChunk : Chunk :=
  { id := 1
    text := "Whoever commits murder shall be punished with death or imprisonment for life."
    act_name := "Indian Penal Code"
    section_label := "Section 302"
    title := "Punishment for murder"
    source_offset := 0 }

/-- An environment whose generator answers with a citation marker taken
from the context. -/
def demoEnvAnswer : Env :=
  { embedProvider := fun _ => .ok [0, 1]
    generator := fun _ => .ok "Murder is punished with death or life imprisonment. [Indian Penal Code, Section 302]"
    index := [(demoChunk, [0, 1])]
    top_k := 5
    maxDistance := none
    max_chars := 1000
    max_turns := 5 }

/-- An environment with an empty index: retrieval returns the empty
sequence, and the generator faults if it is ever consulted. -/
def demoEnvEmpty : Env :=
  { embedProvider := fun _ => .ok [0, 1]
    generator := fun _ => .error "generator must not be invoked"
    index := []
    top_k := 5
    maxDistance := none
    max_chars := 1000
    max_turns := 5 }

/-- An environment whose embedding provider times out. -/
def demoEnvProviderFail : Env :=
  { embedProvider := fun _ => .error "embedding provider timeout"
    generator := fun _ => .ok "irrelevant"
    index := [(demoChunk, [0, 1])]
    top_k := 5
    maxDistance := none
    max_chars := 1000
    max_turns := 5 }

/-- An environment whose generation provider times out after a successful
retrieval. -/
def demoEnvGenFail : Env :=
  { embedProvider := fun _ => .ok [0, 1]
    generator := fun _ => .error "generation provider timeout"
    index := [(demoChunk, [0, 1])]
    top_k := 5
    maxDistance := none
    max_chars := 1000
    max_turns := 5 }

/-- The grounded answer produced by demoEnvAnswer. -/
def demoAnswerOk : GeneratedAnswer :=
  { text := "Murder is punished with death or life imprisonment. [Indian Penal Code, Section 302]"
    citations := [chunkCitation demoChunk]
    is_fallback := false }

/-- The fixed fallback answer. -/
def demoFallbackAnswer : GeneratedAnswer :=
  { text := fallbackSentence, citations := [], is_fallback := true }

/-! ## Scratch checks -/

example : answer_query demoEnvEmpty "What are the tax laws in USA?" []
    = .ok { text := fallbackSentence, citations := [], is_fallback := true } := rfl

example : answer_query demoEnvAnswer "What is Section 302 of IPC?" []
    = .ok { text := "Murder is punished with death or life imprisonment. [Indian Penal Code, Section 302]"
            citations := [chunkCitation demoChunk]
            is_fallback := false } := rfl

example : answer_query demoEnvProviderFail "What is Section 302 of IPC?" []
    = .error (.providerError "embedding provider timeout") := rfl

example : extractMarkerStrings "abc [X, Y] def [Z] [" = ["X, Y", "Z"] := by decide

example : assemble [] 50 = ("", []) := rfl

example : getConfidence true 7 = { level := "low", value := 0, text := "No match found" } := by decide
example : getConfidence false 3 = { level := "high", value := 85, text := "High confidence" } := by decide
example : getConfidence false 2 = { level := "medium", value := 60, text := "Medium confidence" } := by decide
example : getConfidence false 0 = { level := "low", value := 30, text := "Low confidence" } := by decide
example : getChatSessions { status := 401, body := ["x"], detail := none } = .ok [] := rfl
example : getChatSessions { status := 500, body := [], detail := some "boom" } = .error "boom" := rfl
example : getChatSessions { status := 200, body := ["a"], detail := none } = .ok ["a"] := rfl
example : (truncatedFileContent "abc") = "abc" := by decide
example : ("I ab".data = ['I', ' ', 'a', 'b']) := by decide

/-! ## Helper lemmas -/

/-- The kept results always render within the character budget. -/
lemma fitCount_renders_le (m : Nat) (rs : List RetrievalResult) :
    (renderContext (rs.take (fitCount m rs))).length ≤ m := by
  unfold fitCount
  cases hf : ((List.range (rs.length + 1)).reverse).find?
      (fun k => decide ((renderContext (rs.take k)).length ≤ m)) with
  | none =>
    exfalso
    have h0 : (0 : Nat) ∈ (List.range (rs.length + 1)).reverse := by
      simp [List.mem_reverse, List.mem_range]
    have h1 := List.find?_eq_none.mp hf 0 h0
    simp [renderContext] at h1
  | some k =>
    have h1 := List.find?_some hf
    simpa using h1

/-- The error apology of the chat page never coincides with the fixed
fallback sentence: the first differs already in its first character. -/
lemma errorApology_ne_fallback (e : String) : errorApology e ≠ fallbackSentence := by
  intro h
  have hd := congrArg String.data h
  unfold errorApology fallbackSentence at hd
  rw [String.data_append, String.data_append] at hd
  obtain ⟨t, ht⟩ : ∃ t, "I apologize, but I encountered an error: ".data = 'I' :: t := ⟨_, rfl⟩
  obtain ⟨u, hu⟩ : ∃ u,
      "The requested information is not available in the provided legal documents.".data
        = 'T' :: u := ⟨_, rfl⟩
  rw [ht, hu, List.cons_append, List.cons_append] at hd
  injection hd with h1 _
  exact absurd h1 (by decide)

/-! ## Claim theorems -/

/-- C8: the displayed confidence indicator of a bot message is a pure
function of the fallback flag and the number of sources: fallback gives
low/0 with the text No match found; otherwise three or more sources give
high/85, one or two sources give medium/60, and zero sources give
low/30. -/
theorem getConfidence_cases (n₁ n₂ n₃ : Nat) (h₁ : 3 ≤ n₁) (h₂ : n₂ = 1 ∨ n₂ = 2) :
    getConfidence true n₃ = { level := "low", value := 0, text := "No match found" }
    ∧ getConfidence false n₁ = { level := "high", value := 85, text := "High confidence" }
    ∧ getConfidence false n₂ = { level := "medium", value := 60, text := "Medium confidence" }
    ∧ getConfidence false 0 = { level := "low", value := 30, text := "Low confidence" } := by
  refine ⟨rfl, ?_, ?_, by decide⟩
  · simp [getConfidence, h₁]
  · rcases h₂ with h | h <;> subst h <;> decide

/-- Evaluation witness for getConfidence_cases at 4, 2 and 9 sources. -/
theorem getConfidence_cases_witness :
    getConfidence true 9 = { level := "low", value := 0, text := "No match found" }
    ∧ getConfidence false 4 = { level := "high", value := 85, text := "High confidence" }
    ∧ getConfidence false 2 = { level := "medium", value := 60, text := "Medium confidence" }
    ∧ getConfidence false 0 = { level := "low", value := 30, text := "Low confidence" } :=
  getConfidence_cases 4 2 9 (by decide) (Or.inr rfl)

/-- C9: sendChatWithFile embeds at most the first 8000 characters of the
extracted file content directly into the query text of the request body
(the truncated content is an initial segment of the file content of
length at most 8000), and the body carries no separate file field — only
the query and the session id. -/
theorem sendChatWithFile_truncates (q fc : String) (sid : Option String) :
    (sendChatWithFileBody q fc sid).query
      = filePreambleFor q ++ truncatedFileContent fc ++ fileEpilogue
    ∧ (truncatedFileContent fc).length ≤ 8000
    ∧ fc = String.mk ((truncatedFileContent fc).data ++ fc.data.drop 8000)
    ∧ (sendChatWithFileBody q fc sid).session_id = sid := by
  refine ⟨rfl, ?_, ?_, rfl⟩
  · show (String.mk (fc.data.take 8000)).length ≤ 8000
    rw [String.length_mk]
    simp [List.length_take]
  · show fc = String.mk (fc.data.take 8000 ++ fc.data.drop 8000)
    rw [List.take_append_drop]

/-- C10: getChatSessions maps an HTTP 401 response to the empty session
list instead of an error, while every other non-ok status yields an
error. -/
theorem getChatSessions_statuses (r₁ r₂ : SessionsHttpResponse)
    (h1 : r₁.status = 401) (h2 : respOk r₂.status = false) (h3 : r₂.status ≠ 401) :
    getChatSessions r₁ = .ok []
    ∧ getChatSessions r₂ = .error (r₂.detail.getD "Failed to fetch sessions") := by
  constructor
  · unfold getChatSessions
    rw [h1]
    rfl
  · unfold getChatSessions
    rw [h2, if_neg h3]
    rfl

/-- Evaluation witness for getChatSessions_statuses at statuses 401 and
500. -/
theorem getChatSessions_statuses_witness :
    getChatSessions { status := 401, body := ["s1"], detail := none } = .ok []
    ∧ getChatSessions { status := 500, body := [], detail := some "boom" } = .error "boom" :=
  getChatSessions_statuses
    { status := 401, body := ["s1"], detail := none }
    { status := 500, body := [], detail := some "boom" }
    rfl (by decide) (by decide)

/-- C6: assemble never returns a context longer than the budget, its
context is always the rendering of a whole initial segment of the ranked
results (no chunk is ever cut in the middle, truncation only drops
lowest-ranked chunks), and the empty result sequence yields the empty
context with no citations. -/
theorem assemble_respects_budget (rs : List RetrievalResult) (m : Nat) :
    (assemble rs m).1.length ≤ m
    ∧ (∃ k, assemble rs m
        = (renderContext (rs.take k), dedupCitations ((rs.take k).map (fun r => chunkCitation r.chunk))))
    ∧ assemble ([] : List RetrievalResult) m = ("", []) := by
  refine ⟨?_, ⟨fitCount m rs, rfl⟩, ?_⟩
  · exact fitCount_renders_le m rs
  · simp [assemble, fitCount, List.find?, renderContext, dedupCitations]

/-- C1: every citation of a non-fallback answer comes from the context
actually assembled for that query, and its label occurs as a citation
marker inside the answer text; marker-like substrings of the completion
that match no citation supplied in context never reach the result. -/
theorem answer_citations_grounded (env : Env) (q : String) (turns : List ConversationTurn)
    (a : GeneratedAnswer) (c : Citation)
    (hok : answer_query env q turns = .ok a) (hnf : a.is_fallback = false)
    (hc : c ∈ a.citations) :
    c ∈ contextCitations env q ∧ citationKey c ∈ extractMarkerStrings a.text := by
  unfold answer_query answerQueryWithCount at hok
  split at hok
  · simp at hok
  · simp at hok
    rw [← hok] at hnf
    simp at hnf
  · rename_i r rs heq
    split at hok
    · simp at hok
    · split at hok
      · simp at hok
        rw [← hok] at hnf
        simp at hnf
      · simp at hok
        rw [← hok] at hc ⊢
        have hc2 := List.mem_filter.mp hc
        refine ⟨?_, of_decide_eq_true hc2.2⟩
        unfold contextCitations
        rw [heq]
        exact hc2.1

/-- Evaluation witness for answer_citations_grounded on the demo
environment. -/
theorem answer_citations_grounded_witness :
    chunkCitation demoChunk ∈ contextCitations demoEnvAnswer "What is Section 302 of IPC?"
    ∧ citationKey (chunkCitation demoChunk) ∈ extractMarkerStrings demoAnswerOk.text :=
  answer_citations_grounded demoEnvAnswer "What is Section 302 of IPC?" [] demoAnswerOk
    (chunkCitation demoChunk) rfl rfl (by decide)

/-- C2: a fallback answer carries no citations, and the chat bubble never
renders the Legal References section for a fallback message. -/
theorem fallback_implies_no_citations (env : Env) (q : String) (turns : List ConversationTurn)
    (a : GeneratedAnswer) (role : String) (sources : List Citation)
    (hok : answer_query env q turns = .ok a) (hf : a.is_fallback = true) :
    a.citations = [] ∧ showsLegalReferences role sources true = false := by
  refine ⟨?_, by simp [showsLegalReferences]⟩
  unfold answer_query answerQueryWithCount at hok
  split at hok
  · simp at hok
  · simp at hok
    rw [← hok]
  · split at hok
    · simp at hok
    · split at hok
      · simp at hok
        rw [← hok]
      · simp at hok
        rw [← hok] at hf
        simp at hf

/-- Evaluation witness for fallback_implies_no_citations on the empty
index. -/
theorem fallback_implies_no_citations_witness :
    demoFallbackAnswer.citations = []
    ∧ showsLegalReferences "bot" [chunkCitation demoChunk] true = false :=
  fallback_implies_no_citations demoEnvEmpty "What is the GDPR?" [] demoFallbackAnswer
    "bot" [chunkCitation demoChunk] rfl rfl

/-- C3: when retrieval returns the empty sequence (a normal result) the
pipeline short-circuits to the fixed fallback answer with no citations
and the Answer Generator is invoked zero times. -/
theorem empty_retrieval_short_circuits (env : Env) (q : String) (turns : List ConversationTurn)
    (h : retrieve env q = .ok []) :
    answer_query env q turns = .ok { text := fallbackSentence, citations := [], is_fallback := true }
    ∧ (answerQueryWithCount env q turns).2 = 0 := by
  constructor
  · unfold answer_query answerQueryWithCount
    rw [h]
  · unfold answerQueryWithCount
    rw [h]

/-- Evaluation witness for empty_retrieval_short_circuits: out-of-corpus
query against the empty index, with a generator that faults if called. -/
theorem empty_retrieval_short_circuits_witness :
    answer_query demoEnvEmpty "What are the tax laws in USA?" []
      = .ok { text := fallbackSentence, citations := [], is_fallback := true }
    ∧ (answerQueryWithCount demoEnvEmpty "What are the tax laws in USA?" []).2 = 0 :=
  empty_retrieval_short_circuits demoEnvEmpty "What are the tax laws in USA?" [] rfl

/-- C5: every fallback answer returns the single fixed fallback sentence
verbatim; the text never varies between queries. -/
theorem fallback_text_verbatim (env : Env) (q : String) (turns : List ConversationTurn)
    (a : GeneratedAnswer) (hok : answer_query env q turns = .ok a) (hf : a.is_fallback = true) :
    a.text = fallbackSentence := by
  unfold answer_query answerQueryWithCount at hok
  split at hok
  · simp at hok
  · simp at hok
    rw [← hok]
  · split at hok
    · simp at hok
    · split at hok
      · simp at hok
        rw [← hok]
      · simp at hok
        rw [← hok] at hf
        simp at hf

/-- Evaluation witness for fallback_text_verbatim on an out-of-corpus
query. -/
theorem fallback_text_verbatim_witness : demoFallbackAnswer.text = fallbackSentence :=
  fallback_text_verbatim demoEnvEmpty "Explain the tax law of France" [] demoFallbackAnswer rfl rfl

/-- C7: two runs of answer_query on an identical query, identical history
and the same (deterministic, functionally modelled) backends yield
identical text and citations, and every generation request fixes the
temperature at the minimum supported value 0. -/
theorem answer_query_deterministic (env : Env) (q : String) (turns : List ConversationTurn)
    (a₁ a₂ : GeneratedAnswer) (ctx : String) (hist : List ConversationTurn)
    (h₁ : answer_query env q turns = .ok a₁) (h₂ : answer_query env q turns = .ok a₂) :
    a₁.text = a₂.text ∧ a₁.citations = a₂.citations
    ∧ (buildGenRequest q ctx hist).temperature = 0 := by
  have h := h₁.symm.trans h₂
  injection h with h
  exact ⟨by rw [h], by rw [h], rfl⟩

/-- Evaluation witness for answer_query_deterministic on the demo
environment. -/
theorem answer_query_deterministic_witness :
    demoAnswerOk.text = demoAnswerOk.text ∧ demoAnswerOk.citations = demoAnswerOk.citations
    ∧ (buildGenRequest "What is Section 302 of IPC?" "" []).temperature = 0 :=
  answer_query_deterministic demoEnvAnswer "What is Section 302 of IPC?" [] demoAnswerOk
    demoAnswerOk "" [] rfl rfl

/-- C4 counterexample: the chat page DOES present a provider failure with
the fallback flag set — the catch branch of handleSend marks the rendered
error message with isFallback true for this concrete connection
failure. -/
theorem provider_error_rendered_as_fallback :
    (handleSendBotMessage
      (.error "Unable to connect to the server. Please ensure the backend is running.")).isFallback
      = true := rfl

/-- C4 amended: the pipeline surfaces an embedding-provider failure as a
ProviderError and a generation-provider failure as a GenerationError,
response shapes distinct from any fallback answer; the frontend, however,
renders a caught error as a bot message that is marked with isFallback
true — although its content is the error apology text, which is never the
fixed fallback sentence. -/
theorem provider_error_distinct (env₁ env₂ : Env) (q₁ q₂ : String)
    (turns₁ turns₂ : List ConversationTurn) (msg gmsg e : String)
    (r : RetrievalResult) (rs : List RetrievalResult)
    (hq : q₁ ≠ "") (hk : env₁.top_k ≠ 0)
    (hemb : env₁.embedProvider q₁ = .error msg)
    (hr : retrieve env₂ q₂ = .ok (r :: rs))
    (hgen : env₂.generator (buildGenRequest q₂ (assemble (r :: rs) env₂.max_chars).1
        (build_history_window turns₂ env₂.max_turns)) = .error gmsg) :
    answer_query env₁ q₁ turns₁ = .error (.providerError msg)
    ∧ answer_query env₂ q₂ turns₂ = .error (.generationError gmsg)
    ∧ (handleSendBotMessage (.error e)).isFallback = true
    ∧ (handleSendBotMessage (.error e)).content ≠ fallbackSentence := by
  refine ⟨?_, ?_, rfl, errorApology_ne_fallback e⟩
  · unfold answer_query answerQueryWithCount retrieve
    rw [if_neg hq, if_neg hk, hemb]
  · unfold answer_query answerQueryWithCount
    rw [hr]
    dsimp only
    rw [hgen]

/-- Evaluation witness for provider_error_distinct: a timed-out embedding
provider, and a generation provider that times out after a successful
retrieval. -/
theorem provider_error_distinct_witness :
    answer_query demoEnvProviderFail "What is Section 302 of IPC?" []
      = .error (.providerError "embedding provider timeout")
    ∧ answer_query demoEnvGenFail "What is Section 302 of IPC?" []
      = .error (.generationError "generation provider timeout")
    ∧ (handleSendBotMessage (.error "Server error: 500")).isFallback = true
    ∧ (handleSendBotMessage (.error "Server error: 500")).content ≠ fallbackSentence :=
  provider_error_distinct demoEnvProviderFail demoEnvGenFail
    "What is Section 302 of IPC?" "What is Section 302 of IPC?" [] []
    "embedding provider timeout" "generation provider timeout" "Server error: 500"
    { chunk := demoChunk, score := 0 } []
    (by decide) (by decide) rfl rfl rfl
